import Mathlib

/-!
Verification of the casflo book API (Cloudflare Workers / Hono / D1).

The repository duplicates its CRUD pipeline over a few variants; per the
spec, the richest variant — the structured JavaScript one — is ground
truth: `src/models/book.js` (BookModel), its controller, the routes in
`src/routes/book.js`, the middleware (cache / validate), and
`src/utils/index.js`.  The TypeScript variants (`src/index.ts`, the zod
`bookQuerySchema`, the TS `BookModel.findById` / `findWithFilters`) are
embedded where a claim cites them.

The storage engine (D1) and the KV cache are external collaborators: the
embedding gives the storage semantics of exactly the fixed queries the
code issues (an in-memory table) and models the KV store as an
association list.
-/

namespace Casflo

/-- A row of the `books` table, with the columns the list/filter/sort
logic of `BookModel.getAll` touches.  `description` is nullable in the
schema, the others are always set at insert time. -/
structure Book where
  id : String
  title : String
  author : String
  description : Option String := none
  status : String := "active"
  genre : Option String := none
  created_at : String
  updated_at : String
deriving Repr, DecidableEq

/-- Error classes of `src/types/index.js`: `NotFoundError` renders as 404,
`DatabaseError` as 500, `ValidationError` as 400; a bare `Error` (the
model throws those for missing ids / empty field sets) has no status of
its own. -/
inductive AppErr where
  | notFound (resource : String)
  | databaseError (msg : String)
  | validationError (msg : String)
  | genericError (msg : String)
deriving Repr, DecidableEq

/-! ## Query construction in `BookModel.getAll` (src/models/book.js 10-83)

The WHERE conditions and the bound parameter list are built by four
`if(filter)` pushes; the sort column is validated against an allow-list
and the direction normalized; the page query interpolates only the
(validated) sort column and direction into the text, everything else is
a `?` placeholder. -/

/-- Options consumed by `getAll` (defaults as destructured in source). -/
structure GetAllOptions where
  page : Nat := 1
  limit : Nat := 10
  search : Option String := none
  author : Option String := none
  status : Option String := none
  genre : Option String := none
  sortBy : String := "created_at"
  sortOrder : String := "desc"
deriving Repr, DecidableEq

/-- The `whereConditions` array after the four filter pushes. -/
def whereConditions (o : GetAllOptions) : List String :=
  (if o.search.isSome then ["(title LIKE ? OR author LIKE ? OR description LIKE ?)"] else []) ++
  (if o.author.isSome then ["author = ?"] else []) ++
  (if o.status.isSome then ["status = ?"] else []) ++
  (if o.genre.isSome then ["genre = ?"] else [])

/-- The bound parameter list built alongside `whereConditions`
(the search value is wrapped in `%...%` and pushed three times). -/
def whereParams (o : GetAllOptions) : List String :=
  (match o.search with
    | some s => ["%" ++ s ++ "%", "%" ++ s ++ "%", "%" ++ s ++ "%"]
    | none => []) ++
  (match o.author with | some a => [a] | none => []) ++
  (match o.status with | some st => [st] | none => []) ++
  (match o.genre with | some g => [g] | none => [])

/-- `whereClause`: empty, or `WHERE` plus the conditions joined by `AND`. -/
def whereClause (o : GetAllOptions) : String :=
  if whereConditions o = [] then ""
  else "WHERE " ++ String.intercalate " AND " (whereConditions o)

/-- `validSortColumns` allow-list of `getAll`. -/
def validSortColumns : List String :=
  ["title", "author", "created_at", "updated_at", "status", "genre"]

/-- `sortColumn`: the requested column if allow-listed, else `created_at`. -/
def sortColumn (o : GetAllOptions) : String :=
  if validSortColumns.contains o.sortBy then o.sortBy else "created_at"

/-- ASCII uppercasing (`String.prototype.toUpperCase` on the inputs in
play), character by character. -/
def jsToUpper (s : String) : String := String.mk (s.data.map Char.toUpper)

/-- ASCII lowercasing, character by character. -/
def jsToLower (s : String) : String := String.mk (s.data.map Char.toLower)

/-- `sortDirection`: `ASC` exactly when the uppercased request is `ASC`. -/
def sortDirection (o : GetAllOptions) : String :=
  if jsToUpper o.sortOrder = "ASC" then "ASC" else "DESC"

/-- Text of the count query. -/
def countQueryText (o : GetAllOptions) : String :=
  "SELECT COUNT(*) as total FROM books " ++ whereClause o

/-- Text of the page query; sort column and direction are the only
interpolated pieces, limit and offset are placeholders. -/
def booksQueryText (o : GetAllOptions) : String :=
  "SELECT * FROM books " ++ whereClause o ++
    " ORDER BY " ++ sortColumn o ++ " " ++ sortDirection o ++ " LIMIT ? OFFSET ?"

/-- The ORDER BY key list of `booksQueryText`: the single validated
column with its direction — the source appends no tie-break key. -/
def getAllOrderKeys (o : GetAllOptions) : List (String × String) :=
  [(sortColumn o, sortDirection o)]

/-! ## Query construction in the TS `BookModel.findWithFilters`
(membership-joined list with search / categorical / date-range filters;
all values are pushed into `params`, the conditions are fixed strings). -/

/-- The filter record validated by `bookFiltersSchema`. -/
structure BookFilters where
  search : Option String := none
  module_type : Option String := none
  date_from : Option String := none
  date_to : Option String := none
deriving Repr, DecidableEq

/-- `conditions` of `findWithFilters`: the membership predicate plus one
fixed-text condition per present filter. -/
def fwfConditions (f : BookFilters) : List String :=
  ["bm.user_id = ?"] ++
  (if f.module_type.isSome then ["b.module_type = ?"] else []) ++
  (if f.search.isSome then ["(b.name LIKE ? OR b.name LIKE ?)"] else []) ++
  (if f.date_from.isSome then ["b.created_at >= ?"] else []) ++
  (if f.date_to.isSome then ["b.created_at <= ?"] else [])

/-- `params` of `findWithFilters` (search pushed twice as `%...%`). -/
def fwfParams (userId : String) (f : BookFilters) : List String :=
  [userId] ++
  (match f.module_type with | some m => [m] | none => []) ++
  (match f.search with | some s => ["%" ++ s ++ "%", "%" ++ s ++ "%"] | none => []) ++
  (match f.date_from with | some d => [d] | none => []) ++
  (match f.date_to with | some d => [d] | none => [])

/-- WHERE clause of `findWithFilters` (`conditions` is never empty: the
membership predicate is always there). -/
def fwfWhereClause (f : BookFilters) : String :=
  if fwfConditions f = [] then ""
  else "WHERE " ++ String.intercalate " AND " (fwfConditions f)

/-- Count query text of `findWithFilters`. -/
def fwfCountQueryText (f : BookFilters) : String :=
  "SELECT COUNT(*) as total FROM books b JOIN book_members bm ON b.id = bm.book_id " ++
    fwfWhereClause f

/-- Page query text of `findWithFilters` (fixed sort, placeholder
limit/offset). -/
def fwfBooksQueryText (f : BookFilters) : String :=
  "SELECT b.id, b.name, b.icon, b.module_type, b.created_by, b.created_at, b.updated_at, b.updated_by, bm.role FROM books b JOIN book_members bm ON b.id = bm.book_id " ++
    fwfWhereClause f ++ " ORDER BY b.created_at DESC LIMIT ? OFFSET ?"

/-! ## Dynamic SET-list construction in `BookModel.update`
(src/models/book.js 144-182).  `updateData` is a JS object: an ordered
list of (key, value) entries, a value being `undefined` (`none`) or
present.  An entry contributes `key = ?` to the SET list exactly when
its value is defined and the key is neither `id` nor `created_at`;
`updated_at = ?` is always appended at the end. -/

/-- The `updateFields` array (SET fragments, keys only — values go to
`params`). -/
def updateFields (updateData : List (String × Option String)) : List String :=
  updateData.filterMap fun p =>
    match p.2 with
    | some _ => if p.1 ≠ "id" ∧ p.1 ≠ "created_at" then some (p.1 ++ " = ?") else none
    | none => none

/-- The (column, value) pairs the UPDATE statement writes, including the
trailing `updated_at`. -/
def updateSetPairs (updateData : List (String × Option String)) (now : String) :
    List (String × String) :=
  (updateData.filterMap fun p =>
    match p.2 with
    | some v => if p.1 ≠ "id" ∧ p.1 ≠ "created_at" then some (p.1, v) else none
    | none => none) ++ [("updated_at", now)]

/-- Text of the UPDATE statement (built only when `updateFields` is
non-empty; key names are interpolated, values are placeholders). -/
def updateQueryText (updateData : List (String × Option String)) : String :=
  "UPDATE books SET " ++
    String.intercalate ", " (updateFields updateData ++ ["updated_at = ?"]) ++
    " WHERE id = ?"

/-! ## Storage semantics of the queries `BookModel` issues

D1/SQLite is the external collaborator; the embedding interprets exactly
the fixed statements the model prepares, over an in-memory `List Book`
table.  `LIKE '%s%'` is a case-insensitive substring test (SQLite's
default ASCII collation); a `LIKE` on a NULL column does not match. -/

/-- `col LIKE '%pat%'` over a nullable column. -/
def likeContains (pat : String) (v : Option String) : Bool :=
  match v with
  | none => false
  | some t => decide (List.IsInfix (jsToLower pat).data (jsToLower t).data)

/-- One row against the WHERE clause built by `getAll`. -/
def matchesWhere (o : GetAllOptions) (b : Book) : Bool :=
  (match o.search with
    | some s => likeContains s (some b.title) || likeContains s (some b.author) ||
        likeContains s b.description
    | none => true) &&
  (match o.author with | some a => b.author = a | none => true) &&
  (match o.status with | some st => b.status = st | none => true) &&
  (match o.genre with | some g => b.genre = some g | none => true)

/-- Column projection for the allow-listed sort columns (a NULL `genre`
sorts as the empty string here; no claim depends on NULL placement). -/
def bookCol (b : Book) : String → String
  | "title" => b.title
  | "author" => b.author
  | "created_at" => b.created_at
  | "updated_at" => b.updated_at
  | "status" => b.status
  | "genre" => b.genre.getD ""
  | "id" => b.id
  | _ => ""

/-- Lexicographic (SQLite BINARY) comparison on character lists. -/
def charListLe : List Char → List Char → Bool
  | [], _ => true
  | _ :: _, [] => false
  | a :: as, b :: bs => if a = b then charListLe as bs else decide (a.toNat < b.toNat)

/-- Non-strict TEXT ordering of the storage engine. -/
def strLeB (a b : String) : Bool := charListLe a.data b.data

/-- The (non-strict) row comparison the single ORDER BY key imposes. -/
def rowLeB (o : GetAllOptions) (a b : Book) : Bool :=
  if sortDirection o = "ASC" then
    strLeB (bookCol a (sortColumn o)) (bookCol b (sortColumn o))
  else
    strLeB (bookCol b (sortColumn o)) (bookCol a (sortColumn o))

/-- A row list sorted according to the ORDER BY contract of
`booksQueryText`: every adjacent pair respects the single sort key.  Any
list satisfying this is an admissible answer of the storage engine for
the page query (before LIMIT/OFFSET). -/
def orderedBy (le : Book → Book → Bool) : List Book → Bool
  | [] => true
  | [_] => true
  | x :: y :: xs => le x y && orderedBy le (y :: xs)

/-- Insertion step of the reference sort. -/
def insertSorted (le : Book → Book → Bool) (b : Book) : List Book → List Book
  | [] => [b]
  | x :: xs => if le b x then b :: x :: xs else x :: insertSorted le b xs

/-- Reference sort used to execute ORDER BY in the embedding. -/
def sortRows (le : Book → Book → Bool) (l : List Book) : List Book :=
  l.foldr (insertSorted le) []

/-- `Math.ceil(total/limit)` on naturals (the schemas force a positive
limit; JS would produce Infinity at limit 0, outside this domain). -/
def jsCeilDiv (total limit : Nat) : Nat := (total + limit - 1) / limit

/-- `pagination` object of the `getAll` response. -/
structure Pagination where
  page : Nat
  limit : Nat
  total : Nat
  total_pages : Nat
deriving Repr, DecidableEq

/-- Return value of `getAll`. -/
structure GetAllResult where
  books : List Book
  pagination : Pagination
deriving Repr, DecidableEq

/-- `BookModel.getAll` run against a table: count over the WHERE
predicate, then the sorted page `LIMIT limit OFFSET (page-1)*limit`.
With the storage collaborator functioning, no path of `getAll` throws:
an empty match yields `count 0` and an empty page. -/
def getAllRun (table : List Book) (o : GetAllOptions) : Except AppErr GetAllResult :=
  let filtered := table.filter (matchesWhere o)
  let total := filtered.length
  let sorted := sortRows (rowLeB o) filtered
  let offset := (o.page - 1) * o.limit
  .ok {
    books := (sorted.drop offset).take o.limit,
    pagination := {
      page := o.page, limit := o.limit, total,
      total_pages := jsCeilDiv total o.limit } }

/-- `BookModel.getById`: falsy id throws, a missing row throws
`NotFoundError('Book')`, otherwise the row is returned. -/
def getByIdRun (table : List Book) (id : String) : Except AppErr Book :=
  if id = "" then .error (.genericError "Book ID is required")
  else
    match table.find? (fun b => b.id = id) with
    | some b => .ok b
    | none => .error (.notFound "Book")

/-- The TS `BookModel.findById`: `SELECT * FROM books WHERE id = ?`,
`first()` formatted through `formatSingleResult` — `null` when no row
matches, never a throw. -/
def findByIdRun (table : List Book) (id : String) : Option Book :=
  table.find? (fun b => b.id = id)

/-- Body accepted by `create` (columns the embedding does not reason
about — isbn, pages, price, … — are elided). -/
structure BookInput where
  title : String
  author : String
  description : Option String := none
  status : String := "active"
  genre : Option String := none
deriving Repr, DecidableEq

/-- `BookModel.create`: INSERT the new row (id and `now` supplied by the
caller, standing for `Utils.generateId()` / `new Date()`), then return
`getById(id)`. -/
def createRun (table : List Book) (id now : String) (d : BookInput) :
    Except AppErr Book × List Book :=
  let b : Book := {
    id, title := d.title, author := d.author, description := d.description,
    status := d.status, genre := d.genre, created_at := now, updated_at := now }
  let table' := table ++ [b]
  (getByIdRun table' id, table')

/-- `{deleted: true, id}` payload of `delete`. -/
structure DeleteResult where
  deleted : Bool
  id : String
deriving Repr, DecidableEq

/-- `BookModel.delete`: falsy id throws, `getById` throws `NotFoundError`
when the row is absent, otherwise the row is removed. -/
def deleteRun (table : List Book) (id : String) :
    Except AppErr DeleteResult × List Book :=
  if id = "" then (.error (.genericError "Book ID is required"), table)
  else
    match table.find? (fun b => b.id = id) with
    | none => (.error (.notFound "Book"), table)
    | some _ => (.ok { deleted := true, id }, table.filter (fun b => ¬ b.id = id))

/-! ## `BookModel.update` over column maps

`update` builds its SET list dynamically from the keys of `updateData`,
so its semantics is given over rows as (column, value) association
lists. -/

/-- A stored row as a column map. -/
abbrev Row := List (String × String)

/-- Value of a column in a row. -/
def rowGet (r : Row) (c : String) : Option String :=
  (r.find? (fun p => p.1 = c)).map Prod.snd

/-- `SET c = v` applied to one row. -/
def rowSet (r : Row) (c v : String) : Row :=
  r.map fun p => if p.1 = c then (p.1, v) else p

/-- All SET pairs of an UPDATE applied in order. -/
def applySetPairs (r : Row) (sets : List (String × String)) : Row :=
  sets.foldl (fun acc p => rowSet acc p.1 p.2) r

/-- `BookModel.update id updateData` against a row table: falsy id
throws; `getById` throws `NotFoundError` for a missing row; an empty
SET list throws `No valid fields to update` before any statement runs;
otherwise the UPDATE of `updateSetPairs` hits the matching row and the
updated row is returned. -/
def updateRun (table : List Row) (now id : String)
    (updateData : List (String × Option String)) : Except AppErr Row × List Row :=
  if id = "" then (.error (.genericError "Book ID is required"), table)
  else
    match table.find? (fun r => rowGet r "id" = some id) with
    | none => (.error (.notFound "Book"), table)
    | some _ =>
      if updateFields updateData = [] then
        (.error (.genericError "No valid fields to update"), table)
      else
        let table' := table.map fun r =>
          if rowGet r "id" = some id then applySetPairs r (updateSetPairs updateData now)
          else r
        match table'.find? (fun r => rowGet r "id" = some id) with
        | some r => (.ok r, table')
        | none => (.error (.notFound "Book"), table')

/-! ## The batch orchestrator (src/models/book.js 204-280)

`createMultiple` / `updateMultiple` / `deleteMultiple` share one loop:
`for` over the input array, `try` the single-item operation, push the
result on success, push an error entry carrying the original input on
failure, and never abort.  The single-item operation threads the table
state; a failing item may still have touched the state, so the step
returns both outcome and new state. -/

/-- The shared `for … try/catch` loop: returns the successes in order,
the error entries (original input, error) in order, and the final
state. -/
def batchLoop (f : σ → α → Except ε β × σ) : σ → List α →
    List β × List (α × ε) × σ
  | s, [] => ([], [], s)
  | s, x :: xs =>
    match f s x with
    | (.ok b, s') =>
      let (rs, es, s'') := batchLoop f s' xs
      (b :: rs, es, s'')
    | (.error e, s') =>
      let (rs, es, s'') := batchLoop f s' xs
      (rs, (x, e) :: es, s'')

/-- Per-item outcomes of the same sequential run, in input order. -/
def batchOutcomes (f : σ → α → Except ε β × σ) : σ → List α → List (Except ε β)
  | _, [] => []
  | s, x :: xs =>
    match f s x with
    | (r, s') => r :: batchOutcomes f s' xs

/-- Aggregate returned by the three batch operations (the successes
field is named `created` / `updated` / `deleted` respectively in the JS
response objects). -/
structure BatchResult (α β ε : Type) where
  results : List β
  errors : List (α × ε)
  total : Nat
  success_count : Nat
  error_count : Nat

/-- `BookModel.createMultiple`, parameterized by the stateful single-item
`create` (in source, `this.create` against the live table): a missing or
empty array throws; otherwise the loop of `batchLoop` feeds the
aggregate counts. -/
def createMultiple (create : σ → α → Except ε β × σ) (s : σ) (booksData : List α) :
    Except String (BatchResult α β ε × σ) :=
  if booksData.isEmpty then .error "Books data array is required"
  else
    let (results, errors, s') := batchLoop create s booksData
    .ok ({ results, errors, total := booksData.length,
           success_count := results.length, error_count := errors.length }, s')

/-- `BookModel.updateMultiple` (items are `{id, data}` pairs; the error
entry keeps both). -/
def updateMultiple (upd : σ → α → Except ε β × σ) (s : σ) (updates : List α) :
    Except String (BatchResult α β ε × σ) :=
  if updates.isEmpty then .error "Updates array is required"
  else
    let (results, errors, s') := batchLoop upd s updates
    .ok ({ results, errors, total := updates.length,
           success_count := results.length, error_count := errors.length }, s')

/-- `BookModel.deleteMultiple` over the book table, with `this.delete`
as the single-item operation. -/
def deleteMultiple (table : List Book) (ids : List String) :
    Except String (BatchResult String DeleteResult AppErr × List Book) :=
  if ids.isEmpty then .error "IDs array is required"
  else
    let (results, errors, table') := batchLoop (fun t i => deleteRun t i) table ids
    .ok ({ results, errors, total := ids.length,
           success_count := results.length, error_count := errors.length }, table')

/-! ## Limit validation across the variants

Three places consume a caller-supplied `limit`.  The two zod schemas
run after numeric coercion (`z.coerce.number()` / the middleware), so
their embedding takes the already-coerced integer; the raw
`src/index.ts` handler calls `parseInt` itself and applies no check at
all. -/

/-- `limit` branch of `bookQuerySchema` (src/types/schemas.ts 31-35):
default 20, must be positive, must not exceed 100 — out-of-range values
are REJECTED with the declared message, not clamped. -/
def bookQuerySchemaLimit (limit : Option Int) : Except String Int :=
  match limit with
  | none => .ok 20
  | some n =>
    if n ≤ 0 then .error "Limit must be positive"
    else if n > 100 then .error "Limit cannot exceed 100"
    else .ok n

/-- `limit` branch of the JS `BookQuerySchema` (src/types/index.js 87):
default 10, positive, `max(100)` — also rejection, not clamping. -/
def jsBookQuerySchemaLimit (limit : Option Int) : Except String Int :=
  match limit with
  | none => .ok 10
  | some n =>
    if n ≤ 0 then .error "invalid"
    else if n > 100 then .error "invalid"
    else .ok n

/-- Numeric value of a decimal digit character. -/
def digitVal? (c : Char) : Option Nat :=
  if 48 ≤ c.toNat ∧ c.toNat ≤ 57 then some (c.toNat - 48) else none

/-- Accumulating decimal read of a digit list. -/
def decDigitsAux : List Char → Nat → Option Nat
  | [], acc => some acc
  | c :: cs, acc =>
    match digitVal? c with
    | some d => decDigitsAux cs (acc * 10 + d)
    | none => none

/-- Decimal reading of a non-empty all-digit character list. -/
def decNat? (l : List Char) : Option Nat :=
  if l.isEmpty then none else decDigitsAux l 0

/-- JS `parseInt` restricted to plain (optionally negated) decimal
strings, the only shape the claims evaluate; `none` models NaN. -/
def parseIntJs (s : String) : Option Int :=
  match s.data with
  | '-' :: rest => (decNat? rest).map (fun n => -(n : Int))
  | l => (decNat? l).map (fun n => (n : Int))

/-- `parseInt(c.req.query('limit') || '20')` of the raw GET /books
handler in src/index.ts (an absent or empty string falls back to "20").
The result is bound directly as the LIMIT parameter — no bound is
applied. -/
def indexTsGetBooksLimit (raw : Option String) : Option Int :=
  let s := match raw with
    | none => "20"
    | some v => if v = "" then "20" else v
  parseIntJs s

/-! ## The statistics aggregator (src/models/book.js 283-311)

`getStatistics` loops over six named queries; a grouped key goes through
`executeQuery`, a scalar key through `executeGet` with `?.count || 0`.
The `catch` block first evaluates `Logger.error(...)` — but
`src/models/book.js` imports only `DatabaseUtils`, `Utils`,
`NotFoundError` and `DatabaseError`, so `Logger` is resolved against the
module scope and, being absent, raises a `ReferenceError` inside the
`catch`, which propagates out of `getStatistics`.  The embedding makes
the module scope and the name resolution explicit. -/

/-- Top-level names in scope inside src/models/book.js (its two import
lines plus the class itself). -/
def bookJsModuleScope : List String :=
  ["DatabaseUtils", "Utils", "NotFoundError", "DatabaseError", "BookModel"]

/-- JS evaluation failures that can escape `getStatistics`. -/
inductive JsError where
  | referenceError (msg : String)
deriving Repr, DecidableEq

/-- Resolving a free identifier against a module scope: a miss is a
`ReferenceError: <name> is not defined`. -/
def resolveName (scope : List String) (n : String) : Except JsError Unit :=
  if scope.contains n then .ok ()
  else .error (.referenceError (n ++ " is not defined"))

/-- Value of one statistics entry. -/
inductive StatValue where
  | scalar (n : Nat)
  | grouped (rows : List (String × Nat))
deriving Repr, DecidableEq

/-- The fixed `queries` object of `getStatistics`, in entry order. -/
def statisticsQueries : List (String × String) := [
  ("total", "SELECT COUNT(*) as count FROM books"),
  ("active", "SELECT COUNT(*) as count FROM books WHERE status = \"active\""),
  ("inactive", "SELECT COUNT(*) as count FROM books WHERE status = \"inactive\""),
  ("archived", "SELECT COUNT(*) as count FROM books WHERE status = \"archived\""),
  ("by_genre", "SELECT genre, COUNT(*) as count FROM books WHERE genre IS NOT NULL GROUP BY genre ORDER BY count DESC"),
  ("by_author", "SELECT author, COUNT(*) as count FROM books GROUP BY author ORDER BY count DESC LIMIT 10")]

/-- One iteration of the `getStatistics` loop: run the query; on
success store the value (`?.count || 0` for scalars, `results || []`
for grouped); on failure enter the `catch` block, whose first statement
resolves `Logger` — only if that succeeds is the default
(`key.includes('_') ? [] : 0`) stored. -/
def statStep (scope : List String)
    (dbFirst : String → Except String (Option Nat))
    (dbAll : String → Except String (List (String × Nat)))
    (kq : String × String) : Except JsError StatValue :=
  let run : Except String StatValue :=
    if kq.1 = "by_genre" ∨ kq.1 = "by_author" then
      (dbAll kq.2).map .grouped
    else
      (dbFirst kq.2).map fun r => .scalar (r.getD 0)
  match run with
  | .ok v => .ok v
  | .error _ =>
    match resolveName scope "Logger" with
    | .ok _ => .ok (if kq.1.data.contains '_' then .grouped [] else .scalar 0)
    | .error e => .error e

/-- `BookModel.getStatistics`: the sequential loop over
`statisticsQueries`; an error escaping one iteration aborts the loop
and rejects the whole call. -/
def getStatisticsRun (scope : List String)
    (dbFirst : String → Except String (Option Nat))
    (dbAll : String → Except String (List (String × Nat))) :
    Except JsError (List (String × StatValue)) :=
  statisticsQueries.mapM fun kq => (statStep scope dbFirst dbAll kq).map ((kq.1, ·))

/-! ## Routes, cache middleware and controller pipeline (JS variant)

`routes/book.js` wires GET / through `cache(300)` and the controller;
the cache middleware key is `CacheUtils.getCacheKey('api', c.req.url)`;
on hit it replies with the cached body, on miss it runs the handler and
stores the response body.  The write endpoints call the model and
return — neither the controller nor the routes ever call
`CacheUtils.delete` or `CacheUtils.clear` (the latter is defined in
src/utils/index.js but has no caller). -/

/-- JSON bodies the endpoints under study produce. -/
inductive RespBody where
  | paginatedBooks (books : List Book) (p : Pagination)
  | bookItem (status : Nat) (b : Book)
  | batchSummary (total success_count error_count : Nat)
  | errBody (status : Nat) (msg code : String)
deriving Repr, DecidableEq

/-- Server state: the books table plus the KV cache (key → stored
response body; TTL expiry is not modelled — every claim is about reads
within the TTL window). -/
structure Env where
  table : List Book
  kv : List (String × RespBody)
deriving Repr, DecidableEq

/-- KV `get`. -/
def kvGet (kv : List (String × RespBody)) (k : String) : Option RespBody :=
  (kv.find? (fun p => p.1 = k)).map Prod.snd

/-- KV `put` (overwrites the key). -/
def kvPut (kv : List (String × RespBody)) (k : String) (v : RespBody) :
    List (String × RespBody) :=
  (k, v) :: kv.filter (fun p => ¬ p.1 = k)

/-- `CacheUtils.getCacheKey('api', url)`. -/
def apiCacheKey (url : String) : String := "api:" ++ url

/-- GET /books through `cache(300)` + `BookController.getBooks`: cache
hit returns the stored body untouched; miss runs `getAll` and caches
the paginated response. -/
def getBooksEndpoint (url : String) (o : GetAllOptions) (e : Env) : RespBody × Env :=
  match kvGet e.kv (apiCacheKey url) with
  | some cached => (cached, e)
  | none =>
    match getAllRun e.table o with
    | .ok r =>
      let body := RespBody.paginatedBooks r.books r.pagination
      (body, { e with kv := kvPut e.kv (apiCacheKey url) body })
    | .error _ =>
      (RespBody.errBody 500 "Failed to retrieve books" "GET_BOOKS_ERROR", e)

/-- POST /books through `BookController.createBook`: create in the
model, reply 201 — the KV cache is not touched on this path. -/
def createBookEndpoint (id now : String) (input : BookInput) (e : Env) :
    RespBody × Env :=
  match createRun e.table id now input with
  | (.ok b, table') => (RespBody.bookItem 201 b, { e with table := table' })
  | (.error _, table') =>
    (RespBody.errBody 500 "Failed to create book" "CREATE_BOOK_ERROR",
      { e with table := table' })

/-- DELETE /books/batch through `BookController.deleteMultipleBooks`:
a missing or empty `ids` array throws `ValidationError('IDs array is
required')`, caught into a 400 response, before `deleteMultiple` (and
hence any storage statement) runs. -/
def deleteMultipleBooksEndpoint (ids : Option (List String)) (e : Env) :
    RespBody × Env :=
  match ids with
  | none => (RespBody.errBody 400 "IDs array is required" "VALIDATION_ERROR", e)
  | some l =>
    if l.isEmpty then
      (RespBody.errBody 400 "IDs array is required" "VALIDATION_ERROR", e)
    else
      match deleteMultiple e.table l with
      | .ok (r, table') =>
        (RespBody.batchSummary r.total r.success_count r.error_count,
          { e with table := table' })
      | .error msg => (RespBody.errBody 400 msg "VALIDATION_ERROR", e)

/-! ## Concrete fixtures used to evaluate the code on failing inputs -/

/-- A pre-existing book row. -/
def bookOne : Book :=
  { id := "b1", title := "Alpha", author := "X",
    created_at := "2024-01-01", updated_at := "2024-01-01" }

/-- Creation payload of the write under test. -/
def inputTwo : BookInput := { title := "Beta", author := "Y" }

/-- Server state before the scenario: one stored book, empty cache. -/
def staleEnv0 : Env := { table := [bookOne], kv := [] }

/-- First GET /books: fills the cache. -/
def staleGet1 : RespBody × Env := getBooksEndpoint "/books" {} staleEnv0

/-- The write: POST /books succeeds (id and timestamp supplied). -/
def staleCreate : RespBody × Env :=
  createBookEndpoint "b2" "2024-01-02" inputTwo staleGet1.2

/-- Second GET /books, immediately after the successful write. -/
def staleGet2 : RespBody × Env := getBooksEndpoint "/books" {} staleCreate.2

/-- What the second GET would answer from storage with no cache entry. -/
def freshAfterWrite : RespBody × Env :=
  getBooksEndpoint "/books" {} { table := staleCreate.2.table, kv := [] }

/-- A storage collaborator that fails exactly the total-count statistics
query (a D1 error) and answers 5 elsewhere. -/
def statsDbFirstFailTotal : String → Except String (Option Nat) := fun q =>
  if q = "SELECT COUNT(*) as count FROM books" then .error "D1_ERROR"
  else .ok (some 5)

/-- Grouped statistics queries succeed with empty groupings. -/
def statsDbAllOk : String → Except String (List (String × Nat)) := fun _ => .ok []

/-- Error projection of one zipped (input, outcome) pair: the error
entry the batch loop pushes for it, if any. -/
def errEntry : α × Except ε β → Option (α × ε) :=
  fun p => match p.2 with | .error e => some (p.1, e) | .ok _ => none

/-- Concrete batch step that fails exactly on input 2. -/
def failOnTwo : Nat → Nat → Except String Nat × Nat :=
  fun s x => (if x = 2 then .error "bad" else .ok x, s)

/-- Concrete batch step that fails on every input. -/
def alwaysFail : Nat → Nat → Except String Nat × Nat :=
  fun t _ => (.error "boom", t)

/-! ## Helper lemmas -/

theorem jsCeilDiv_zero (l : Nat) : jsCeilDiv 0 l = 0 := by
  unfold jsCeilDiv
  cases l with
  | zero => rfl
  | succ k => simpa using Nat.div_eq_of_lt (by omega)

theorem charListLe_refl (l : List Char) : charListLe l l = true := by
  induction l with
  | nil => rfl
  | cons a as ih => simp [charListLe, ih]

theorem strLeB_refl (s : String) : strLeB s s = true := charListLe_refl s.data

theorem updateFields_congr (d₁ d₂ : List (String × Option String))
    (hd : d₁.map (fun p => (p.1, p.2.isSome)) = d₂.map (fun p => (p.1, p.2.isSome))) :
    updateFields d₁ = updateFields d₂ := by
  induction d₁ generalizing d₂ with
  | nil =>
    cases d₂ with
    | nil => rfl
    | cons b m => simp at hd
  | cons a l ih =>
    cases d₂ with
    | nil => simp at hd
    | cons b m =>
      simp only [List.map_cons, List.cons.injEq, Prod.mk.injEq] at hd
      obtain ⟨⟨hk, hs⟩, ht⟩ := hd
      have hrest := ih m ht
      unfold updateFields
      simp only [List.filterMap_cons]
      cases ha : a.2 with
      | none =>
        cases hb : b.2 with
        | none => exact hrest
        | some w => rw [ha, hb] at hs; simp at hs
      | some v =>
        cases hb : b.2 with
        | none => rw [ha, hb] at hs; simp at hs
        | some w =>
          rw [hk]
          unfold updateFields at hrest
          by_cases hcond : b.1 ≠ "id" ∧ b.1 ≠ "created_at"
          · simp only [hcond, if_true, hrest]
          · simp only [hcond, if_false, hrest]

theorem batchOutcomes_length (f : σ → α → Except ε β × σ) (s : σ) (l : List α) :
    (batchOutcomes f s l).length = l.length := by
  induction l generalizing s with
  | nil => rfl
  | cons x xs ih =>
    rcases hfx : f s x with ⟨r, s1⟩
    simp [batchOutcomes, hfx, ih]

theorem batchLoop_results (f : σ → α → Except ε β × σ) (s : σ) (l : List α) :
    (batchLoop f s l).1 =
      (l.zip (batchOutcomes f s l)).filterMap (fun p => p.2.toOption) := by
  induction l generalizing s with
  | nil => rfl
  | cons x xs ih =>
    rcases hfx : f s x with ⟨r, s1⟩
    cases r with
    | ok b => simp [batchLoop, batchOutcomes, hfx, Except.toOption, ih]
    | error e => simp [batchLoop, batchOutcomes, hfx, Except.toOption, ih]

theorem batchLoop_errors (f : σ → α → Except ε β × σ) (s : σ) (l : List α) :
    (batchLoop f s l).2.1 =
      (l.zip (batchOutcomes f s l)).filterMap errEntry := by
  induction l generalizing s with
  | nil => rfl
  | cons x xs ih =>
    rcases hfx : f s x with ⟨r, s1⟩
    cases r with
    | ok b => simp [batchLoop, batchOutcomes, hfx, ih, errEntry]
    | error e => simp [batchLoop, batchOutcomes, hfx, ih, errEntry]

theorem batchLoop_total (f : σ → α → Except ε β × σ) (s : σ) (l : List α) :
    (batchLoop f s l).1.length + (batchLoop f s l).2.1.length = l.length := by
  induction l generalizing s with
  | nil => rfl
  | cons x xs ih =>
    rcases hfx : f s x with ⟨r, s1⟩
    have h := ih s1
    rcases hb : batchLoop f s1 xs with ⟨rs, es, st⟩
    rw [hb] at h
    dsimp only at h
    cases r with
    | ok b => simp only [batchLoop, hfx, hb, List.length_cons]; omega
    | error e => simp only [batchLoop, hfx, hb, List.length_cons]; omega

theorem batchLoop_error_count (f : σ → α → Except ε β × σ) (s : σ) (l : List α) :
    (batchLoop f s l).2.1.length =
      (batchOutcomes f s l).countP (fun r => !r.isOk) := by
  induction l generalizing s with
  | nil => rfl
  | cons x xs ih =>
    rcases hfx : f s x with ⟨r, s1⟩
    cases r with
    | ok b => simp [batchLoop, batchOutcomes, hfx, Except.isOk, Except.toBool, List.countP_cons, ih]
    | error e => simp [batchLoop, batchOutcomes, hfx, Except.isOk, Except.toBool, List.countP_cons, ih]

/-! ## Claim theorems -/

/-- Claim C2: the SQL text of the list/count queries (and of the
dynamic UPDATE) is fully parameterized — two query specifications that
differ only in the values of the search, categorical and date filters
(same filters present, same sort request, same update keys/definedness)
produce character-for-character identical query strings; the values
travel exclusively through the bound-parameter lists. -/
theorem sql_text_fully_parameterized
    (o₁ o₂ : GetAllOptions) (f₁ f₂ : BookFilters)
    (d₁ d₂ : List (String × Option String))
    (hse : o₁.search.isSome = o₂.search.isSome)
    (hau : o₁.author.isSome = o₂.author.isSome)
    (hst : o₁.status.isSome = o₂.status.isSome)
    (hge : o₁.genre.isSome = o₂.genre.isSome)
    (hsb : o₁.sortBy = o₂.sortBy)
    (hso : o₁.sortOrder = o₂.sortOrder)
    (hfs : f₁.search.isSome = f₂.search.isSome)
    (hfm : f₁.module_type.isSome = f₂.module_type.isSome)
    (hff : f₁.date_from.isSome = f₂.date_from.isSome)
    (hft : f₁.date_to.isSome = f₂.date_to.isSome)
    (hdd : d₁.map (fun p => (p.1, p.2.isSome)) = d₂.map (fun p => (p.1, p.2.isSome))) :
    countQueryText o₁ = countQueryText o₂ ∧
    booksQueryText o₁ = booksQueryText o₂ ∧
    fwfCountQueryText f₁ = fwfCountQueryText f₂ ∧
    fwfBooksQueryText f₁ = fwfBooksQueryText f₂ ∧
    updateQueryText d₁ = updateQueryText d₂ := by
  have hwc : whereConditions o₁ = whereConditions o₂ := by
    unfold whereConditions; rw [hse, hau, hst, hge]
  have hw : whereClause o₁ = whereClause o₂ := by
    unfold whereClause; rw [hwc]
  have hsc : sortColumn o₁ = sortColumn o₂ := by
    unfold sortColumn; rw [hsb]
  have hsd : sortDirection o₁ = sortDirection o₂ := by
    unfold sortDirection; rw [hso]
  have hfc : fwfConditions f₁ = fwfConditions f₂ := by
    unfold fwfConditions; rw [hfm, hfs, hff, hft]
  have hfw : fwfWhereClause f₁ = fwfWhereClause f₂ := by
    unfold fwfWhereClause; rw [hfc]
  refine ⟨?_, ?_, ?_, ?_, ?_⟩
  · unfold countQueryText; rw [hw]
  · unfold booksQueryText; rw [hw, hsc, hsd]
  · unfold fwfCountQueryText; rw [hfw]
  · unfold fwfBooksQueryText; rw [hfw]
  · unfold updateQueryText; rw [updateFields_congr d₁ d₂ hdd]

/-- Witness for C2 at concrete filter values. -/
theorem sql_text_fully_parameterized_witness :
    countQueryText { search := some "alpha", author := some "adams", status := some "active", genre := some "scifi" } = countQueryText { search := some "beta", author := some "brown", status := some "archived", genre := some "drama" } ∧
    booksQueryText { search := some "alpha", author := some "adams", status := some "active", genre := some "scifi" } = booksQueryText { search := some "beta", author := some "brown", status := some "archived", genre := some "drama" } ∧
    fwfCountQueryText { search := some "trip", date_from := some "2024-01-01" } = fwfCountQueryText { search := some "fund", date_from := some "2025-06-30" } ∧
    fwfBooksQueryText { search := some "trip", date_from := some "2024-01-01" } = fwfBooksQueryText { search := some "fund", date_from := some "2025-06-30" } ∧
    updateQueryText [("title", some "Old"), ("price", none)] = updateQueryText [("title", some "New"), ("price", none)] :=
  sql_text_fully_parameterized
    { search := some "alpha", author := some "adams", status := some "active", genre := some "scifi" }
    { search := some "beta", author := some "brown", status := some "archived", genre := some "drama" }
    { search := some "trip", date_from := some "2024-01-01" }
    { search := some "fund", date_from := some "2025-06-30" }
    [("title", some "Old"), ("price", none)]
    [("title", some "New"), ("price", none)]
    rfl rfl rfl rfl rfl rfl rfl rfl rfl rfl (by decide)

/-- Claim C7 counterexample: a list request with limit=1000 is NOT
served with the limit clamped to the documented maximum — the validated
schema rejects it outright with a validation error (and the raw
src/index.ts handler binds 1000 unchanged). -/
theorem limit1000_not_clamped :
    bookQuerySchemaLimit (some 1000) = Except.error "Limit cannot exceed 100" ∧
    bookQuerySchemaLimit (some 1000) ≠ Except.ok 100 ∧
    indexTsGetBooksLimit (some "1000") = some 1000 := by
  refine ⟨rfl, ?_, by decide⟩
  have hred : bookQuerySchemaLimit (some 1000) = Except.error "Limit cannot exceed 100" := rfl
  rw [hred]
  intro hc
  exact Except.noConfusion hc

/-- Claim C7 amended: a caller-supplied limit above the documented
maximum of 100 is rejected by the zod schemas with a validation error
(mapped to a 400), never clamped and never served; the unvalidated demo
handler in src/index.ts applies no bound at all and passes the value
straight through as the LIMIT parameter. -/
theorem limit_over_max_rejected (n : Int) (s : String)
    (h : n > 100) (hs : s ≠ "") (hp : parseIntJs s = some n) :
    bookQuerySchemaLimit (some n) = Except.error "Limit cannot exceed 100" ∧
    jsBookQuerySchemaLimit (some n) = Except.error "invalid" ∧
    indexTsGetBooksLimit (some s) = some n := by
  have h0 : ¬ n ≤ 0 := by omega
  refine ⟨?_, ?_, ?_⟩
  · simp [bookQuerySchemaLimit, h0, h]
  · simp [jsBookQuerySchemaLimit, h0, h]
  · simp [indexTsGetBooksLimit, hs, hp]

/-- Witness for the amended C7 at limit 1000. -/
theorem limit_over_max_rejected_witness :
    bookQuerySchemaLimit (some 1000) = Except.error "Limit cannot exceed 100" ∧
    jsBookQuerySchemaLimit (some 1000) = Except.error "invalid" ∧
    indexTsGetBooksLimit (some "1000") = some 1000 :=
  limit_over_max_rejected 1000 "1000" (by decide) (by decide) (by decide)

/-- Claim C8 counterexample: sorting by title breaks no tie — the
generated ORDER BY key list is just [(title, ASC)], and two distinct
rows with equal titles satisfy the ordering contract in either relative
order, so identical ordering across repeated calls is not forced by the
query. -/
theorem sort_tiebreak_counterexample :
    getAllOrderKeys { sortBy := "title", sortOrder := "asc" } = [("title", "ASC")] ∧
    orderedBy (rowLeB { sortBy := "title", sortOrder := "asc" })
      [{ id := "a", title := "Same", author := "A", created_at := "2024-01-01", updated_at := "2024-01-01" },
       { id := "b", title := "Same", author := "B", created_at := "2024-01-02", updated_at := "2024-01-02" }] = true ∧
    orderedBy (rowLeB { sortBy := "title", sortOrder := "asc" })
      [{ id := "b", title := "Same", author := "B", created_at := "2024-01-02", updated_at := "2024-01-02" },
       { id := "a", title := "Same", author := "A", created_at := "2024-01-01", updated_at := "2024-01-01" }] = true ∧
    ({ id := "a", title := "Same", author := "A", created_at := "2024-01-01", updated_at := "2024-01-01" } : Book) ≠
      { id := "b", title := "Same", author := "B", created_at := "2024-01-02", updated_at := "2024-01-02" } := by
  refine ⟨by decide, by decide, by decide, by decide⟩

/-- Claim C8 amended: the page query orders by the single validated
sort column and direction only; no secondary tie-break key (neither the
creation timestamp nor the identifier) is appended, so two rows that
agree on the sort key are admissible in either relative order under the
ORDER BY contract — reproducible tie ordering is left to the storage
engine, not guaranteed by the query. -/
theorem sort_single_key_no_tiebreak (o : GetAllOptions) (a b : Book)
    (h : bookCol a (sortColumn o) = bookCol b (sortColumn o)) :
    getAllOrderKeys o = [(sortColumn o, sortDirection o)] ∧
    (∀ k ∈ getAllOrderKeys o, k.1 ≠ "id") ∧
    orderedBy (rowLeB o) [a, b] = true ∧
    orderedBy (rowLeB o) [b, a] = true := by
  have hab : rowLeB o a b = true := by
    unfold rowLeB; rw [h]; split <;> exact strLeB_refl _
  have hba : rowLeB o b a = true := by
    unfold rowLeB; rw [h]; split <;> exact strLeB_refl _
  refine ⟨rfl, ?_, ?_, ?_⟩
  · intro k hk
    simp only [getAllOrderKeys, List.mem_singleton] at hk
    subst hk
    show sortColumn o ≠ "id"
    unfold sortColumn
    by_cases hc : validSortColumns.contains o.sortBy = true
    · rw [if_pos hc]
      have hmem : o.sortBy ∈ validSortColumns := List.mem_of_elem_eq_true hc
      simp only [validSortColumns, List.mem_cons, List.not_mem_nil, or_false] at hmem
      rcases hmem with h1 | h1 | h1 | h1 | h1 | h1 <;> rw [h1] <;> decide
    · rw [if_neg hc]
      decide
  · simp [orderedBy, hab]
  · simp [orderedBy, hba]

/-- Witness for the amended C8 at two title-tied rows. -/
theorem sort_single_key_no_tiebreak_witness :
    getAllOrderKeys { sortBy := "title", sortOrder := "asc" } =
      [(sortColumn { sortBy := "title", sortOrder := "asc" },
        sortDirection { sortBy := "title", sortOrder := "asc" })] ∧
    (∀ k ∈ getAllOrderKeys { sortBy := "title", sortOrder := "asc" }, k.1 ≠ "id") ∧
    orderedBy (rowLeB { sortBy := "title", sortOrder := "asc" })
      [{ id := "a", title := "Same", author := "A", created_at := "2024-01-01", updated_at := "2024-01-01" },
       { id := "b", title := "Same", author := "B", created_at := "2024-01-02", updated_at := "2024-01-02" }] = true ∧
    orderedBy (rowLeB { sortBy := "title", sortOrder := "asc" })
      [{ id := "b", title := "Same", author := "B", created_at := "2024-01-02", updated_at := "2024-01-02" },
       { id := "a", title := "Same", author := "A", created_at := "2024-01-01", updated_at := "2024-01-01" }] = true :=
  sort_single_key_no_tiebreak { sortBy := "title", sortOrder := "asc" }
    { id := "a", title := "Same", author := "A", created_at := "2024-01-01", updated_at := "2024-01-01" }
    { id := "b", title := "Same", author := "B", created_at := "2024-01-02", updated_at := "2024-01-02" }
    (by decide)

/-- Claim C6 counterexample: `BookModel.getById` on an identifier with
no matching row does not return a null/empty result — it throws
`NotFoundError('Book')`. -/
theorem getById_throws_counterexample :
    getByIdRun [bookOne] "b2" = Except.error (AppErr.notFound "Book") := rfl

/-- Claim C6 amended: when no row matches, the list read returns an
empty page (count 0) without throwing and the TS `findById` returns
null; but the JS `BookModel.getById` throws `NotFoundError` for a
missing identifier instead of returning null. -/
theorem reads_on_no_match (table : List Book) (o : GetAllOptions) (id : String)
    (hf : table.filter (matchesWhere o) = [])
    (hi : table.find? (fun b => b.id = id) = none)
    (hne : id ≠ "") :
    getAllRun table o = Except.ok { books := [], pagination := { page := o.page, limit := o.limit, total := 0, total_pages := 0 } } ∧
    findByIdRun table id = none ∧
    getByIdRun table id = Except.error (AppErr.notFound "Book") := by
  refine ⟨?_, hi, ?_⟩
  · unfold getAllRun
    rw [hf]
    simp [sortRows, jsCeilDiv_zero]
  · unfold getByIdRun
    simp [hne, hi]

/-- Witness for the amended C6: one stored book, a filter and an id that
match nothing. -/
theorem reads_on_no_match_witness :
    getAllRun [bookOne] { search := some "zzz" } = Except.ok { books := [], pagination := { page := 1, limit := 10, total := 0, total_pages := 0 } } ∧
    findByIdRun [bookOne] "nope" = none ∧
    getByIdRun [bookOne] "nope" = Except.error (AppErr.notFound "Book") :=
  reads_on_no_match [bookOne] { search := some "zzz" } "nope"
    (by decide) (by decide) (by decide)

theorem batchLoop_single_error (f : σ → α → Except ε β × σ) (s : σ) (l : List α)
    (h1 : (batchOutcomes f s l).countP (fun r => !r.isOk) = 1) :
    (batchLoop f s l).1.length = l.length - 1 ∧
    (batchLoop f s l).2.1.length = 1 ∧
    ∃ a e, (batchLoop f s l).2.1 = [(a, e)] ∧
      (a, (Except.error e : Except ε β)) ∈ l.zip (batchOutcomes f s l) := by
  have hec := batchLoop_error_count f s l
  rw [h1] at hec
  have htot := batchLoop_total f s l
  refine ⟨by omega, hec, ?_⟩
  rcases List.length_eq_one.mp hec with ⟨p, hp⟩
  refine ⟨p.1, p.2, by rw [hp], ?_⟩
  have hmem : p ∈ (batchLoop f s l).2.1 := by
    rw [hp]; exact List.mem_singleton.mpr rfl
  rw [batchLoop_errors] at hmem
  rcases List.mem_filterMap.mp hmem with ⟨q, hq, hfq⟩
  cases hq2 : q.2 with
  | ok b => simp [errEntry, hq2] at hfq
  | error e =>
    simp only [errEntry, hq2, Option.some.injEq] at hfq
    have hqp : (p.1, (Except.error p.2 : Except ε β)) = q := by
      have h1' : q.1 = p.1 := congrArg Prod.fst hfq
      have h2' : e = p.2 := congrArg Prod.snd hfq
      calc (p.1, (Except.error p.2 : Except ε β))
          = (q.1, Except.error e) := by rw [h1', h2']
        _ = (q.1, q.2) := by rw [hq2]
        _ = q := rfl
    rw [hqp]
    exact hq

/-- Claim C4: in every batch (create, update, delete) where exactly one
item fails and all others succeed, the aggregate reports
success_count = N-1, error_count = 1, total = N; the errors list is the
single entry pairing the failing item's original input with its error,
correlated to its outcome in the input sequence; processing of the other
items is not aborted (their N-1 results are all present). -/
theorem batch_single_failure
    (f : σ → α → Except ε β × σ) (s : σ) (l : List α)
    (g : τ → γ → Except ζ δ × τ) (t : τ) (m : List γ)
    (table : List Book) (ids : List String)
    (hl : l ≠ []) (hm : m ≠ []) (hids : ids ≠ [])
    (h1 : (batchOutcomes f s l).countP (fun r => !r.isOk) = 1)
    (h2 : (batchOutcomes g t m).countP (fun r => !r.isOk) = 1)
    (h3 : (batchOutcomes (fun tb i => deleteRun tb i) table ids).countP (fun r => !r.isOk) = 1) :
    (∃ br s₁, createMultiple f s l = .ok (br, s₁) ∧
      br.total = l.length ∧ br.success_count = l.length - 1 ∧ br.error_count = 1 ∧
      ∃ a e, br.errors = [(a, e)] ∧
        (a, (Except.error e : Except ε β)) ∈ l.zip (batchOutcomes f s l)) ∧
    (∃ br t₁, updateMultiple g t m = .ok (br, t₁) ∧
      br.total = m.length ∧ br.success_count = m.length - 1 ∧ br.error_count = 1 ∧
      ∃ a e, br.errors = [(a, e)] ∧
        (a, (Except.error e : Except ζ δ)) ∈ m.zip (batchOutcomes g t m)) ∧
    (∃ br tb₁, deleteMultiple table ids = .ok (br, tb₁) ∧
      br.total = ids.length ∧ br.success_count = ids.length - 1 ∧ br.error_count = 1 ∧
      ∃ a e, br.errors = [(a, e)] ∧
        (a, (Except.error e : Except AppErr DeleteResult)) ∈
          ids.zip (batchOutcomes (fun tb i => deleteRun tb i) table ids)) := by
  obtain ⟨hr1, he1, hx1⟩ := batchLoop_single_error f s l h1
  obtain ⟨hr2, he2, hx2⟩ := batchLoop_single_error g t m h2
  obtain ⟨hr3, he3, hx3⟩ := batchLoop_single_error (fun tb i => deleteRun tb i) table ids h3
  refine ⟨?_, ?_, ?_⟩
  · rcases hb : batchLoop f s l with ⟨rs, es, s₁⟩
    rw [hb] at hr1 he1 hx1
    dsimp only at hr1 he1 hx1
    refine ⟨{ results := rs, errors := es, total := l.length, success_count := rs.length, error_count := es.length }, s₁, ?_, rfl, hr1, he1, hx1⟩
    unfold createMultiple
    rw [if_neg (by simpa [List.isEmpty_iff] using hl), hb]
  · rcases hb : batchLoop g t m with ⟨rs, es, t₁⟩
    rw [hb] at hr2 he2 hx2
    dsimp only at hr2 he2 hx2
    refine ⟨{ results := rs, errors := es, total := m.length, success_count := rs.length, error_count := es.length }, t₁, ?_, rfl, hr2, he2, hx2⟩
    unfold updateMultiple
    rw [if_neg (by simpa [List.isEmpty_iff] using hm), hb]
  · rcases hb : batchLoop (fun tb i => deleteRun tb i) table ids with ⟨rs, es, tb₁⟩
    rw [hb] at hr3 he3 hx3
    dsimp only at hr3 he3 hx3
    refine ⟨{ results := rs, errors := es, total := ids.length, success_count := rs.length, error_count := es.length }, tb₁, ?_, rfl, hr3, he3, hx3⟩
    unfold deleteMultiple
    rw [if_neg (by simpa [List.isEmpty_iff] using hids), hb]

/-- Witness for C4: create batch [1,2,3] failing only on 2, update batch
[7] failing on its single item, delete batch over one stored book with a
second missing id. -/
theorem batch_single_failure_witness :
    (∃ br s₁, createMultiple failOnTwo 0 [1, 2, 3] = .ok (br, s₁) ∧
      br.total = [1, 2, 3].length ∧ br.success_count = [1, 2, 3].length - 1 ∧
      br.error_count = 1 ∧
      ∃ a e, br.errors = [(a, e)] ∧
        (a, (Except.error e : Except String Nat)) ∈
          [1, 2, 3].zip (batchOutcomes failOnTwo 0 [1, 2, 3])) ∧
    (∃ br t₁, updateMultiple alwaysFail 0 [7] = .ok (br, t₁) ∧
      br.total = [7].length ∧ br.success_count = [7].length - 1 ∧
      br.error_count = 1 ∧
      ∃ a e, br.errors = [(a, e)] ∧
        (a, (Except.error e : Except String Nat)) ∈
          [7].zip (batchOutcomes alwaysFail 0 [7])) ∧
    (∃ br tb₁, deleteMultiple [bookOne] ["b1", "bX"] = .ok (br, tb₁) ∧
      br.total = ["b1", "bX"].length ∧ br.success_count = ["b1", "bX"].length - 1 ∧
      br.error_count = 1 ∧
      ∃ a e, br.errors = [(a, e)] ∧
        (a, (Except.error e : Except AppErr DeleteResult)) ∈
          ["b1", "bX"].zip (batchOutcomes (fun tb i => deleteRun tb i) [bookOne] ["b1", "bX"])) :=
  batch_single_failure failOnTwo 0 [1, 2, 3] alwaysFail 0 [7] [bookOne] ["b1", "bX"]
    (by decide) (by decide) (by decide) (by decide) (by decide) (by decide)

/-- Claim C9: the three batch operations process their items
sequentially in input order: the successes list and the errors list are
exactly the order-preserving projections (ok / error) of the per-item
outcome sequence taken in input order, so each preserves the relative
input order and the combined outcomes follow the input order. -/
theorem batch_preserves_input_order
    (f : σ → α → Except ε β × σ) (s : σ) (l : List α)
    (g : τ → γ → Except ζ δ × τ) (t : τ) (m : List γ)
    (table : List Book) (ids : List String)
    (hl : l ≠ []) (hm : m ≠ []) (hids : ids ≠ []) :
    (∃ br s₁, createMultiple f s l = .ok (br, s₁) ∧
      br.results = (l.zip (batchOutcomes f s l)).filterMap (fun p => p.2.toOption) ∧
      br.errors = (l.zip (batchOutcomes f s l)).filterMap errEntry) ∧
    (∃ br t₁, updateMultiple g t m = .ok (br, t₁) ∧
      br.results = (m.zip (batchOutcomes g t m)).filterMap (fun p => p.2.toOption) ∧
      br.errors = (m.zip (batchOutcomes g t m)).filterMap errEntry) ∧
    (∃ br tb₁, deleteMultiple table ids = .ok (br, tb₁) ∧
      br.results = (ids.zip (batchOutcomes (fun tb i => deleteRun tb i) table ids)).filterMap
        (fun p => p.2.toOption) ∧
      br.errors = (ids.zip (batchOutcomes (fun tb i => deleteRun tb i) table ids)).filterMap errEntry) := by
  refine ⟨?_, ?_, ?_⟩
  · have hres := batchLoop_results f s l
    have herr := batchLoop_errors f s l
    rcases hb : batchLoop f s l with ⟨rs, es, s₁⟩
    rw [hb] at hres herr
    dsimp only at hres herr
    refine ⟨{ results := rs, errors := es, total := l.length, success_count := rs.length, error_count := es.length }, s₁, ?_, hres, herr⟩
    unfold createMultiple
    rw [if_neg (by simpa [List.isEmpty_iff] using hl), hb]
  · have hres := batchLoop_results g t m
    have herr := batchLoop_errors g t m
    rcases hb : batchLoop g t m with ⟨rs, es, t₁⟩
    rw [hb] at hres herr
    dsimp only at hres herr
    refine ⟨{ results := rs, errors := es, total := m.length, success_count := rs.length, error_count := es.length }, t₁, ?_, hres, herr⟩
    unfold updateMultiple
    rw [if_neg (by simpa [List.isEmpty_iff] using hm), hb]
  · have hres := batchLoop_results (fun tb i => deleteRun tb i) table ids
    have herr := batchLoop_errors (fun tb i => deleteRun tb i) table ids
    rcases hb : batchLoop (fun tb i => deleteRun tb i) table ids with ⟨rs, es, tb₁⟩
    rw [hb] at hres herr
    dsimp only at hres herr
    refine ⟨{ results := rs, errors := es, total := ids.length, success_count := rs.length, error_count := es.length }, tb₁, ?_, ?_, ?_⟩
    · unfold deleteMultiple
      rw [if_neg (by simpa [List.isEmpty_iff] using hids), hb]
    · simpa using hres
    · simpa using herr

/-- Witness for C9 at the concrete batches of the C4 scenario. -/
theorem batch_preserves_input_order_witness :
    (∃ br s₁, createMultiple failOnTwo 0 [1, 2, 3] = .ok (br, s₁) ∧
      br.results = ([1, 2, 3].zip (batchOutcomes failOnTwo 0 [1, 2, 3])).filterMap
        (fun p => p.2.toOption) ∧
      br.errors = ([1, 2, 3].zip (batchOutcomes failOnTwo 0 [1, 2, 3])).filterMap errEntry) ∧
    (∃ br t₁, updateMultiple alwaysFail 0 [7] = .ok (br, t₁) ∧
      br.results = ([7].zip (batchOutcomes alwaysFail 0 [7])).filterMap
        (fun p => p.2.toOption) ∧
      br.errors = ([7].zip (batchOutcomes alwaysFail 0 [7])).filterMap errEntry) ∧
    (∃ br tb₁, deleteMultiple [bookOne] ["b1", "bX"] = .ok (br, tb₁) ∧
      br.results = (["b1", "bX"].zip (batchOutcomes (fun tb i => deleteRun tb i) [bookOne] ["b1", "bX"])).filterMap
        (fun p => p.2.toOption) ∧
      br.errors = (["b1", "bX"].zip (batchOutcomes (fun tb i => deleteRun tb i) [bookOne] ["b1", "bX"])).filterMap errEntry) :=
  batch_preserves_input_order failOnTwo 0 [1, 2, 3] alwaysFail 0 [7] [bookOne] ["b1", "bX"]
    (by decide) (by decide) (by decide)

theorem updateFields_eq_nil (d : List (String × Option String))
    (h : ∀ p ∈ d, p.2 = none ∨ p.1 = "id" ∨ p.1 = "created_at") :
    updateFields d = [] := by
  induction d with
  | nil => rfl
  | cons a l ih =>
    have ha := h a (List.mem_cons_self a l)
    have hl : ∀ p ∈ l, p.2 = none ∨ p.1 = "id" ∨ p.1 = "created_at" :=
      fun p hp => h p (List.mem_cons_of_mem a hp)
    have hres := ih hl
    unfold updateFields at hres ⊢
    simp only [List.filterMap_cons]
    cases ha2 : a.2 with
    | none => simpa using hres
    | some v =>
      rcases ha with h0 | h0 | h0
      · rw [h0] at ha2; exact Option.noConfusion ha2
      · simpa [ha2, h0] using hres
      · simpa [ha2, h0] using hres

/-- Claim C10: an update whose data contains no updatable field (every
entry undefined, or only the keys id / created_at present) fails by
throwing and leaves the stored table unchanged; moreover the SET pairs
of any UPDATE statement never include the id or created_at column. -/
theorem update_without_updatable_fields (table : List Row) (now id : String)
    (d d' : List (String × Option String))
    (h : ∀ p ∈ d, p.2 = none ∨ p.1 = "id" ∨ p.1 = "created_at") :
    (∃ e, updateRun table now id d = (.error e, table)) ∧
    (∀ q ∈ updateSetPairs d' now, q.1 ≠ "id" ∧ q.1 ≠ "created_at") := by
  constructor
  · have hnil := updateFields_eq_nil d h
    unfold updateRun
    by_cases hid : id = ""
    · exact ⟨.genericError "Book ID is required", by rw [if_pos hid]⟩
    · cases hfind : table.find? (fun r => rowGet r "id" = some id) with
      | none =>
        exact ⟨.notFound "Book", by rw [if_neg hid]⟩
      | some r =>
        exact ⟨.genericError "No valid fields to update",
          by rw [if_neg hid]; simp [hnil]⟩
  · intro q hq
    unfold updateSetPairs at hq
    rcases List.mem_append.mp hq with hq1 | hq1
    · rcases List.mem_filterMap.mp hq1 with ⟨p, hp, hpe⟩
      cases hp2 : p.2 with
      | none => simp [hp2] at hpe
      | some v =>
        simp only [hp2] at hpe
        by_cases hcond : p.1 ≠ "id" ∧ p.1 ≠ "created_at"
        · rw [if_pos hcond] at hpe
          have hqv := Option.some.inj hpe
          subst hqv
          exact hcond
        · rw [if_neg hcond] at hpe
          exact Option.noConfusion hpe
    · simp only [List.mem_singleton] at hq1
      subst hq1
      refine ⟨?_, ?_⟩
      · show ("updated_at" : String) ≠ "id"
        decide
      · show ("updated_at" : String) ≠ "created_at"
        decide

/-- Witness for C10: an update carrying only an id write and an
undefined title against a one-row table, plus a SET-pair check for a
normal update body. -/
theorem update_without_updatable_fields_witness :
    (∃ e, updateRun [[("id", "b1"), ("title", "T"), ("created_at", "t0")]] "t1" "b1" [("id", some "zz"), ("title", none)] =
      (.error e, [[("id", "b1"), ("title", "T"), ("created_at", "t0")]])) ∧
    (∀ q ∈ updateSetPairs [("title", some "New"), ("created_at", some "t9")] "t1",
      q.1 ≠ "id" ∧ q.1 ≠ "created_at") :=
  update_without_updatable_fields [[("id", "b1"), ("title", "T"), ("created_at", "t0")]]
    "t1" "b1" [("id", some "zz"), ("title", none)]
    [("title", some "New"), ("created_at", some "t9")] (by decide)

/-- Claim C5: a batch request whose ids array is missing or empty is
rejected as a 400 validation error before any per-item processing
begins — the server state is returned untouched, so no storage
operation runs — and the model-level batch entry points likewise throw
on an empty array. -/
theorem empty_batch_rejected (e : Env) (ids : Option (List String))
    (f : σ → α → Except ε β × σ) (s : σ) (g : τ → γ → Except ζ δ × τ) (t : τ)
    (h : ids = none ∨ ids = some []) :
    deleteMultipleBooksEndpoint ids e =
      (RespBody.errBody 400 "IDs array is required" "VALIDATION_ERROR", e) ∧
    createMultiple f s ([] : List α) = .error "Books data array is required" ∧
    updateMultiple g t ([] : List γ) = .error "Updates array is required" ∧
    deleteMultiple e.table [] = .error "IDs array is required" := by
  rcases h with h | h <;> subst h <;> exact ⟨rfl, rfl, rfl, rfl⟩

/-- Witness for C5: the endpoint with an explicit empty ids array. -/
theorem empty_batch_rejected_witness :
    deleteMultipleBooksEndpoint (some []) staleEnv0 =
      (RespBody.errBody 400 "IDs array is required" "VALIDATION_ERROR", staleEnv0) ∧
    createMultiple failOnTwo 0 ([] : List Nat) = .error "Books data array is required" ∧
    updateMultiple alwaysFail 0 ([] : List Nat) = .error "Updates array is required" ∧
    deleteMultiple staleEnv0.table [] = .error "IDs array is required" :=
  empty_batch_rejected staleEnv0 (some []) failOnTwo 0 alwaysFail 0 (Or.inr rfl)

/-- Claim C1 (code evidence): starting from a cached GET /books list
entry, a successful POST /books grows the table but touches no cache
key, and the immediately following GET /books answers with the cached
pre-write body — different from what the same request computes from
storage without the cache entry. -/
theorem write_leaves_stale_list_cache :
    staleCreate.1 = RespBody.bookItem 201 { id := "b2", title := "Beta", author := "Y", created_at := "2024-01-02", updated_at := "2024-01-02" } ∧
    staleCreate.2.table = [bookOne, { id := "b2", title := "Beta", author := "Y", created_at := "2024-01-02", updated_at := "2024-01-02" }] ∧
    staleCreate.2.kv = staleGet1.2.kv ∧
    staleGet2.1 = staleGet1.1 ∧
    staleGet2.1 ≠ freshAfterWrite.1 :=
  ⟨by decide, by decide, by decide, by decide, by decide⟩

/-- Claim C3 (code evidence): when the total-count statistics query
fails, the catch block's reference to the unimported `Logger` raises
`ReferenceError: Logger is not defined`, which escapes the loop and
rejects the whole `getStatistics` call; with `Logger` in the module
scope the very same run would return the complete six-entry mapping
with the defaults (0 for the failed scalar). -/
theorem statistics_fail_raises_reference_error :
    getStatisticsRun bookJsModuleScope statsDbFirstFailTotal statsDbAllOk =
      Except.error (JsError.referenceError "Logger is not defined") ∧
    getStatisticsRun ("Logger" :: bookJsModuleScope) statsDbFirstFailTotal statsDbAllOk =
      Except.ok [("total", StatValue.scalar 0), ("active", StatValue.scalar 5),
        ("inactive", StatValue.scalar 5), ("archived", StatValue.scalar 5),
        ("by_genre", StatValue.grouped []), ("by_author", StatValue.grouped [])] :=
  ⟨rfl, rfl⟩

end Casflo
